import Mathlib

/-!
Formal model of the nysc_queue allocation and verification engine.

The definitions below are a shallow embedding of the JavaScript source:
  * `src/utils/fingerprint.js`  — device fingerprint derivation and validation
  * `src/utils/validation.js`   — state-code and coordinate validation
  * `src/utils/geofencing.js`   — haversine distance and the geofence gate
  * `src/routes/queue.js`       — the `/generate` and `/verify` route handlers
  * `src/database/migrate.js`   — the `queue_entries` schema (modelled as lists)

External effects are modelled explicitly: the SHA-256 digest from node's
`crypto` module is an oracle parameter `hash : String → String` (the code only
ever compares digests for equality, and the digest of a fixed input string is
deterministic), and the floating-point haversine distance inside the route is
an oracle parameter `dist` over ℤ (the route only consumes the resulting
distance through the clamp-and-compare gate, which is exact arithmetic).
The relational store is a list-valued state threaded through each handler;
`BEGIN`/`COMMIT`/`ROLLBACK` become "return the updated state" versus "return
the input state unchanged".
-/

/-! ## Device fingerprinting (`src/utils/fingerprint.js`) -/

/-- Metadata sub-object of the client device payload.  In the source the
values arrive as numbers or strings and are folded into the fingerprint via
`metadata.colorDepth || ''`; absent fields therefore contribute the empty
string, which we model by using `String` fields with `""` for "absent". -/
structure DeviceMeta where
  colorDepth : String
  hardwareConcurrency : String
  deviceMemory : String
  maxTouchPoints : String
  canvas : String
deriving DecidableEq, Repr

/-- Device attribute bag submitted by the client (`device_info`).  JavaScript
destructuring defaults every missing field to `''`, so absent attributes are
modelled as the empty string. -/
structure DeviceInfo where
  userAgent : String
  platform : String
  screenResolution : String
  timezone : String
  language : String
  metadata : DeviceMeta
deriving DecidableEq, Repr

/-- Browser-specific fingerprint (`generateFingerprint`, fingerprint.js lines
13-31): SHA-256 digest of the `|`-joined attributes.  `hash` is the digest
oracle. -/
def generateFingerprint (hash : String → String) (d : DeviceInfo) : String :=
  hash (String.intercalate "|"
    [d.userAgent, d.platform, d.screenResolution, d.timezone, d.language])

/-- Cross-browser stable fingerprint (`generateStableFingerprint`,
fingerprint.js lines 38-60): excludes the user agent and folds in the
hardware/display metadata. -/
def generateStableFingerprint (hash : String → String) (d : DeviceInfo) : String :=
  hash (String.intercalate "|"
    [d.platform, d.screenResolution, d.timezone, d.language,
     d.metadata.colorDepth, d.metadata.hardwareConcurrency,
     d.metadata.deviceMemory, d.metadata.maxTouchPoints, d.metadata.canvas])

/-- Required-field check (`validateDeviceInfo`, fingerprint.js lines 81-95):
returns the list of required fields whose value is falsy (here: empty).
The source's `valid` flag is `missing = []`. -/
def validateDeviceInfo (d : DeviceInfo) : List String :=
  (([("userAgent", d.userAgent), ("platform", d.platform),
     ("screenResolution", d.screenResolution), ("timezone", d.timezone)]).filter
    (fun f => f.2 == "")).map (fun f => f.1)

/-! ## Input validation (`src/utils/validation.js`) -/

/-- JavaScript `String.prototype.trim`: strip whitespace from both ends. -/
def jsTrim (s : String) : String :=
  ⟨((s.data.dropWhile Char.isWhitespace).reverse.dropWhile Char.isWhitespace).reverse⟩

/-- JavaScript `String.prototype.toUpperCase`, restricted to the ASCII range
(state codes are ASCII letters, digits and slashes). -/
def jsToUpper (s : String) : String :=
  ⟨s.data.map Char.toUpper⟩

/-- Normalisation applied by `validateStateCode` before the pattern test
(validation.js line 23): `stateCode.trim().toUpperCase()`. -/
def normalizeStateCode (s : String) : String :=
  jsToUpper (jsTrim s)

/-- The regex `^[A-Z]\x7b2\x7d\/\d\x7b2\x7d[A-C]\/\d\x7b1,5\x7d$` from
validation.js line 30, decided over the character list of the candidate. -/
def stateCodePattern : List Char → Bool
  | a :: b :: '/' :: y1 :: y2 :: bt :: '/' :: rest =>
      a.isUpper && b.isUpper && y1.isDigit && y2.isDigit &&
      (bt == 'A' || bt == 'B' || bt == 'C') &&
      decide (1 ≤ rest.length) && decide (rest.length ≤ 5) && rest.all Char.isDigit
  | _ => false

/-- State-code validation (`validateStateCode`, validation.js lines 14-44).
`none` models both the "required" failure (absent or empty input, which is
falsy in JavaScript) and the format failure; on success the source returns
the trimmed, upper-cased `normalized` form. -/
def validateStateCode : Option String → Option String
  | none => none
  | some s =>
      if s = "" then none
      else
        let n := normalizeStateCode s
        if stateCodePattern n.data then some n else none

/-- Coordinate validation (`validateLocation`, validation.js lines 52-95):
both coordinates must be present and inside the valid latitude/longitude
ranges.  Numeric inputs are modelled as integers (subsumed by the
real-valued gate above for the geometry; the `NaN` branch only concerns
non-numeric strings, which are outside this model). -/
def validateLocation (latitude longitude : Option ℤ) : Option (ℤ × ℤ) :=
  match latitude, longitude with
  | some lat, some lon =>
      if lat < -90 ∨ 90 < lat then none
      else if lon < -180 ∨ 180 < lon then none
      else some (lat, lon)
  | _, _ => none

/-! ## Geofencing (`src/utils/geofencing.js`)

The haversine distance is defined over the reals (the source computes with
IEEE doubles; the real-valued reading is the standard idealisation).  The
clamp-and-compare gate downstream of the distance is exact and is stated both
over ℝ (for the gate theorems) and over ℤ (inside the executable route
model, where the distance value is supplied by an oracle). -/

/-- Model of JavaScript `Math.atan2 y x` as the argument of the complex
number `x + y*I`. -/
noncomputable def atan2 (y x : ℝ) : ℝ :=
  Complex.arg ⟨x, y⟩

/-- Haversine great-circle distance in meters (`calculateDistance`,
geofencing.js lines 14-28). -/
noncomputable def calculateDistance (lat1 lon1 lat2 lon2 : ℝ) : ℝ :=
  let R : ℝ := 6371000
  let phi1 := lat1 * Real.pi / 180
  let phi2 := lat2 * Real.pi / 180
  let dphi := (lat2 - lat1) * Real.pi / 180
  let dlam := (lon2 - lon1) * Real.pi / 180
  let a := Real.sin (dphi / 2) * Real.sin (dphi / 2) +
           Real.cos phi1 * Real.cos phi2 * Real.sin (dlam / 2) * Real.sin (dlam / 2)
  let c := 2 * atan2 (Real.sqrt a) (Real.sqrt (1 - a))
  R * c

/-- Cap on the self-reported GPS accuracy adjustment
(`MAX_ACCURACY_ADJUST`, geofencing.js line 48). -/
def MAX_ACCURACY_ADJUST : ℝ := 150

/-- Result record of `isWithinGeofence`.  The verdict is computed on the
unrounded values; the three reported magnitudes are passed through
`Math.round` (which agrees with Mathlib's `round`, i.e. `⌊x + 1/2⌋`). -/
structure GeofenceResult where
  isWithin : Prop
  distance : ℤ
  effectiveDistance : ℤ
  accuracyAdjust : ℤ
  allowed : ℝ

/-- The distance-parametrised part of the gate: clamp the reported accuracy
to `[0, MAX_ACCURACY_ADJUST]`, subtract it from the distance floored at zero,
and admit iff the effective distance is within the radius (geofencing.js
lines 54-63). -/
noncomputable def geofenceVerdict (distance radiusMeters gpsAccuracy : ℝ) : GeofenceResult :=
  let accuracyAdjust := min (max gpsAccuracy 0) MAX_ACCURACY_ADJUST
  let effectiveDistance := max 0 (distance - accuracyAdjust)
  { isWithin := effectiveDistance ≤ radiusMeters
    distance := round distance
    effectiveDistance := round effectiveDistance
    accuracyAdjust := round accuracyAdjust
    allowed := radiusMeters }

/-- The geofence gate (`isWithinGeofence`, geofencing.js lines 50-64),
written exactly as in the source: haversine distance, clamped accuracy
adjustment, effective distance, verdict. -/
noncomputable def isWithinGeofence (userLat userLon lgaLat lgaLon radiusMeters gpsAccuracy : ℝ) :
    GeofenceResult :=
  let distance := calculateDistance userLat userLon lgaLat lgaLon
  let accuracyAdjust := min (max gpsAccuracy 0) MAX_ACCURACY_ADJUST
  let effectiveDistance := max 0 (distance - accuracyAdjust)
  { isWithin := effectiveDistance ≤ radiusMeters
    distance := round distance
    effectiveDistance := round effectiveDistance
    accuracyAdjust := round accuracyAdjust
    allowed := radiusMeters }

/-- Executable (rational) form of the gate's result record, used inside the
route model where the haversine value is supplied by an oracle. -/
structure GeofenceResultQ where
  isWithin : Bool
  distance : ℤ
  effectiveDistance : ℤ
  accuracyAdjust : ℤ
  allowed : ℤ
deriving DecidableEq, Repr

/-- JavaScript `Math.max` on two numbers. -/
def jsMax (a b : ℤ) : ℤ := if a ≤ b then b else a

/-- JavaScript `Math.min` on two numbers. -/
def jsMin (a b : ℤ) : ℤ := if a ≤ b then a else b

/-- Integer instance of the clamp-and-compare gate of geofencing.js lines
54-63, applied to an already-computed distance value (`Math.round` is the
identity on integer inputs, so the three reported fields are the values
themselves; the general real-valued gate is `geofenceVerdict` above). -/
def geofenceVerdictQ (distance radiusMeters gpsAccuracy : ℤ) : GeofenceResultQ :=
  let accuracyAdjust := jsMin (jsMax gpsAccuracy 0) (150 : ℤ)
  let effectiveDistance := jsMax 0 (distance - accuracyAdjust)
  { isWithin := decide (effectiveDistance ≤ radiusMeters)
    distance := distance
    effectiveDistance := effectiveDistance
    accuracyAdjust := accuracyAdjust
    allowed := radiusMeters }

/-! ## Data model (`src/database/migrate.js`) -/

/-- Ticket status, constrained by the schema check
`status IN ('ACTIVE', 'USED')` (migrate.js line 48). -/
inductive Status where
  | ACTIVE
  | USED
deriving DecidableEq, Repr

/-- Row of the `lgas` table (migrate.js lines 16-26). -/
structure LGA where
  id : Nat
  name : String
  latitude : ℤ
  longitude : ℤ
  radius_meters : ℤ
deriving DecidableEq, Repr

/-- Row of the `queue_entries` table (migrate.js lines 39-58).  The UUID
primary key is modelled as a natural number drawn from a counter. -/
structure QueueEntry where
  id : Nat
  state_code : String
  queue_number : Nat
  lga_id : Nat
  device_fingerprint : String
  latitude : ℤ
  longitude : ℤ
  status : Status
  date : String
deriving DecidableEq, Repr

/-- The relational store: committed rows in insertion order, plus the
`corps_members` table and the id counter standing for UUID generation. -/
structure DB where
  lgas : List LGA
  entries : List QueueEntry
  corps_members : List String
  nextId : Nat
deriving DecidableEq, Repr

/-- Body of `POST /api/queue/generate` (queue.js lines 32-38).  Absent JSON
fields are `none`. -/
structure GenerateRequest where
  state_code : Option String
  latitude : Option ℤ
  longitude : Option ℤ
  gps_accuracy : Option ℤ
  device_info : Option DeviceInfo
deriving DecidableEq, Repr

/-! ## Queries issued by the generate handler (`src/routes/queue.js`) -/

/-- VALIDATION 5 query (queue.js lines 141-146): first committed row for
this device fingerprint on `(date, lga)`. -/
def deviceCheck (db : DB) (fp today : String) (lgaId : Nat) : Option QueueEntry :=
  db.entries.find? (fun e =>
    e.device_fingerprint == fp && e.date == today && e.lga_id == lgaId)

/-- VALIDATION 6 query (queue.js lines 181-186): first committed row for
this state code on `(date, lga)`. -/
def stateCodeCheck (db : DB) (sc today : String) (lgaId : Nat) : Option QueueEntry :=
  db.entries.find? (fun e =>
    e.state_code == sc && e.date == today && e.lga_id == lgaId)

/-- Rows of `queue_entries` for a given `(lga, date)` pair. -/
def entriesFor (db : DB) (lgaId : Nat) (today : String) : List QueueEntry :=
  db.entries.filter (fun e => e.lga_id == lgaId && e.date == today)

/-- The `COALESCE(MAX(queue_number), 0)` aggregate of queue.js lines 204-208,
over the rows for `(lga, date)`. -/
def maxQueueNumber (db : DB) (lgaId : Nat) (today : String) : Nat :=
  (entriesFor db lgaId today).foldr (fun e m => max e.queue_number m) 0

/-- Committed effect of the two inserts in queue.js lines 213-241:
`corps_members` gains the state code unless present (`ON CONFLICT DO
NOTHING`), the queue entry is appended, and the id counter advances. -/
def insertQueueEntry (db : DB) (e : QueueEntry) : DB :=
  { db with
    entries := db.entries ++ [e]
    corps_members :=
      if db.corps_members.contains e.state_code then db.corps_members
      else db.corps_members ++ [e.state_code]
    nextId := db.nextId + 1 }

/-- Outcome of the generate handler, one constructor per `return res...`
site of queue.js lines 28-283 (the HTTP status and message strings are
determined by the constructor). -/
inductive GenResult where
  | invalidFormat
  | invalidLocation
  | deviceInfoRequired
  | incompleteDeviceInfo (missing : List String)
  | noLga
  | outsideGeofence (check : GeofenceResultQ)
  | existingQueue (queue_number reference_id : Nat) (status : Status) (date : String)
  | deviceAlreadyUsed (existing_queue_number : Nat) (existing_state_code attempted_state_code : String)
  | stateCodeAlreadyUsed
  | allocated (queue_number reference_id : Nat) (status : Status) (date : String)
  | serverError
deriving DecidableEq, Repr

/-- Accuracy coercion of queue.js line 110:
`typeof gps_accuracy === 'number' && gps_accuracy > 0 ? gps_accuracy : 0`. -/
def accuracyOf : Option ℤ → ℤ
  | some a => if 0 < a then a else 0
  | none => 0

/-- Position used for the geofence check and stored on the ticket
(queue.js lines 50-62 and 96-106): the validated request coordinates when
they are valid, with the LGA centre substituted otherwise (the substitution
branch is reachable only under `DEV_MODE`, since production has already
rejected invalid coordinates). -/
def locOf (req : GenerateRequest) (lga : LGA) : ℤ × ℤ :=
  match validateLocation req.latitude req.longitude with
  | some p => p
  | none => (lga.latitude, lga.longitude)

/-- Queue-number computation and insert block (queue.js lines 202-269).
`insertConflict` injects the storage-level uniqueness `ConflictError` that a
concurrent committer can cause; the sequential model never produces one by
itself.  When the insert throws, control reaches the catch-all of lines
271-279: `ROLLBACK` (state unchanged) and a generic 500 response. -/
def allocate (insertConflict : Bool) (db : DB) (today : String) (lga : LGA)
    (normalizedStateCode deviceFingerprint : String) (userLoc : ℤ × ℤ) : GenResult × DB :=
  let nextNumber := maxQueueNumber db lga.id today + 1
  if insertConflict then (.serverError, db)
  else
    let entry : QueueEntry :=
      { id := db.nextId
        state_code := normalizedStateCode
        queue_number := nextNumber
        lga_id := lga.id
        device_fingerprint := deviceFingerprint
        latitude := userLoc.1
        longitude := userLoc.2
        status := .ACTIVE
        date := today }
    (.allocated nextNumber entry.id .ACTIVE today, insertQueueEntry db entry)

/-- The `POST /api/queue/generate` handler (queue.js lines 28-283).

Parameters standing for ambient context: `isDevMode` is the `DEV_MODE`
environment flag (line 14); `hash` is the SHA-256 oracle; `dist` is the
haversine oracle consumed by the geofence gate; `today` is the request's
current date string (line 140); `insertConflict` injects a concurrent
uniqueness conflict at the insert.

The checks appear in source order: state-code format, coordinate validation
(production only), device-info presence and completeness, LGA lookup,
geofence (production only), device duplicate check, state-code duplicate
check, then allocation.  Every denial path rolls back, leaving the store
unchanged. -/
def generate (isDevMode : Bool) (hash : String → String) (dist : ℤ → ℤ → ℤ → ℤ → ℤ)
    (insertConflict : Bool) (db : DB) (today : String) (req : GenerateRequest) :
    GenResult × DB :=
  match validateStateCode req.state_code with
  | none => (.invalidFormat, db)
  | some normalizedStateCode =>
    if !isDevMode && (validateLocation req.latitude req.longitude).isNone then
      (.invalidLocation, db)
    else
      match req.device_info with
      | none => (.deviceInfoRequired, db)
      | some deviceInfo =>
        match validateDeviceInfo deviceInfo with
        | [] =>
          let deviceFingerprint := generateFingerprint hash deviceInfo
          match db.lgas.head? with
          | none => (.noLga, db)
          | some lga =>
            let userLoc : ℤ × ℤ := locOf req lga
            let geofenceCheck :=
              geofenceVerdictQ (dist userLoc.1 userLoc.2 lga.latitude lga.longitude)
                lga.radius_meters (accuracyOf req.gps_accuracy)
            if !isDevMode && !geofenceCheck.isWithin then
              (.outsideGeofence geofenceCheck, db)
            else
              match deviceCheck db deviceFingerprint today lga.id with
              | some existing =>
                if existing.state_code = normalizedStateCode then
                  (.existingQueue existing.queue_number existing.id existing.status existing.date, db)
                else
                  (.deviceAlreadyUsed existing.queue_number existing.state_code normalizedStateCode, db)
              | none =>
                match stateCodeCheck db normalizedStateCode today lga.id with
                | some existing =>
                  if existing.device_fingerprint ≠ deviceFingerprint then
                    (.stateCodeAlreadyUsed, db)
                  else
                    allocate insertConflict db today lga normalizedStateCode deviceFingerprint userLoc
                | none =>
                  allocate insertConflict db today lga normalizedStateCode deviceFingerprint userLoc
        | missing => (.incompleteDeviceInfo missing, db)

/-- Folding a list of requests through the generate handler (sequential,
conflict-free execution). -/
def generateAll (isDevMode : Bool) (hash : String → String) (dist : ℤ → ℤ → ℤ → ℤ → ℤ)
    (db : DB) (today : String) : List GenerateRequest → DB
  | [] => db
  | req :: rest =>
      generateAll isDevMode hash dist
        (generate isDevMode hash dist false db today req).2 today rest

/-! ## Verification (`POST /api/queue/verify`, queue.js lines 289-373) -/

/-- Outcome of the verify handler, one constructor per response site. -/
inductive VerifyResult where
  | refRequired
  | invalidReference
  | expired
  | ok (queue_number : Nat) (state_code lga_name : String) (status : Status) (date : String)
deriving DecidableEq, Repr

/-- The lookup of queue.js lines 304-309: `queue_entries` joined with `lgas`
on `lga_id`; the row is visible only when the joined LGA exists. -/
def findEntryWithLga (db : DB) (ref : Nat) : Option (QueueEntry × LGA) :=
  match db.entries.find? (fun e => e.id == ref) with
  | none => none
  | some e =>
      match db.lgas.find? (fun l => l.id == e.lga_id) with
      | none => none
      | some l => some (e, l)

/-- Effect of the `UPDATE queue_entries SET status = 'USED' WHERE id = $1`
statement (queue.js lines 337-341). -/
def markUsedUpdate (db : DB) (ref : Nat) : DB :=
  { db with
    entries := db.entries.map (fun e =>
      if e.id == ref then { e with status := .USED } else e) }

/-- The `POST /api/queue/verify` handler (queue.js lines 289-373): missing
reference check, lookup with join, same-day check (`expired` rolls back),
then the conditional `mark_used === true && status === 'ACTIVE'` transition,
reporting the (possibly updated) status. -/
def verify (db : DB) (today : String) (reference_id : Option Nat) (mark_used : Option Bool) :
    VerifyResult × DB :=
  match reference_id with
  | none => (.refRequired, db)
  | some ref =>
    match findEntryWithLga db ref with
    | none => (.invalidReference, db)
    | some (entry, lga) =>
      if entry.date ≠ today then (.expired, db)
      else if mark_used == some true && entry.status == Status.ACTIVE then
        (.ok entry.queue_number entry.state_code lga.name .USED entry.date,
         markUsedUpdate db ref)
      else
        (.ok entry.queue_number entry.state_code lga.name entry.status entry.date, db)

/-! ## Sequence-number bookkeeping -/

/-- Committed sequence numbers for `(lga, date)`, in insertion order. -/
def seqNums (db : DB) (lgaId : Nat) (today : String) : List Nat :=
  (entriesFor db lgaId today).map (fun e => e.queue_number)

/-- The data-model invariant of spec §3: for a fixed `(site, day)` the
sequence numbers are exactly `\x7b1..N\x7d` — a permutation of `1, ..., N`
where `N` is the number of committed tickets. -/
def SeqContiguous (db : DB) (lgaId : Nat) (today : String) : Prop :=
  (seqNums db lgaId today).Perm (List.range' 1 (seqNums db lgaId today).length)

/-! ## Concrete fixtures used by witnesses and counterexamples -/

/-- Hardware metadata shared by the two browsers on the same phone. -/
def metaShared : DeviceMeta :=
  ⟨"24", "8", "4", "5", "CANVAS-SIG"⟩

/-- Device payload: Chrome on a given phone. -/
def devChrome : DeviceInfo :=
  ⟨"UA-Chrome", "Linux armv8", "1080x2400", "Africa/Lagos", "en", metaShared⟩

/-- Device payload: Firefox on the same phone — every stable attribute
agrees with `devChrome`, only the user agent differs. -/
def devFirefox : DeviceInfo :=
  ⟨"UA-Firefox", "Linux armv8", "1080x2400", "Africa/Lagos", "en", metaShared⟩

/-- Device payload with the required `userAgent` attribute missing. -/
def devNoUA : DeviceInfo :=
  ⟨"", "Linux armv8", "1080x2400", "Africa/Lagos", "en", metaShared⟩

/-- Distance oracle: the applicant stands at the LGA centre. -/
def distZero : ℤ → ℤ → ℤ → ℤ → ℤ := fun _ _ _ _ => 0

/-- Distance oracle: the applicant is 100 km away. -/
def distFar : ℤ → ℤ → ℤ → ℤ → ℤ := fun _ _ _ _ => 100000

/-- The single configured LGA (radius 500 m). -/
def lga0 : LGA := ⟨1, "Ikeja", 9, 7, 500⟩

/-- Current day used throughout the fixtures. -/
def day0 : String := "2026-02-02"

/-- Empty store holding only the configured LGA. -/
def db0 : DB := ⟨[lga0], [], [], 1⟩

/-- First allocation request: Chrome phone, state code `ab/23a/1`. -/
def reqChrome : GenerateRequest :=
  ⟨some "ab/23a/1", some 9, some 7, none, some devChrome⟩

/-- Second request from the same phone via Firefox, different state code. -/
def reqFirefox : GenerateRequest :=
  ⟨some "AB/23B/2", some 9, some 7, none, some devFirefox⟩

/-- Request whose device payload is missing `userAgent`. -/
def reqNoUA : GenerateRequest :=
  ⟨some "AB/23A/1", some 9, some 7, none, some devNoUA⟩

/-- Store after `reqChrome` has been allocated ticket #1. -/
def db1 : DB := (generate false id distZero false db0 day0 reqChrome).2

/-- Committed ticket for the Chrome phone (`identity id` digest oracle). -/
def entChrome : QueueEntry :=
  ⟨1, "AB/23A/1", 1, 1, "UA-Chrome|Linux armv8|1080x2400|Africa/Lagos|en", 9, 7, .ACTIVE, day0⟩

/-- Committed ticket for an unrelated device holding state code AB/23B/2. -/
def entOther : QueueEntry :=
  ⟨2, "AB/23B/2", 2, 1, "SOME-OTHER-FP", 9, 7, .ACTIVE, day0⟩

/-- Store holding both `entChrome` and `entOther`. -/
def dbBoth : DB := ⟨[lga0], [entChrome, entOther], ["AB/23A/1", "AB/23B/2"], 3⟩

/-- Store holding only `entOther`. -/
def dbOther : DB := ⟨[lga0], [entOther], ["AB/23B/2"], 3⟩

/-- Request from the Chrome phone attempting `entOther`'s state code. -/
def reqChromeOtherCode : GenerateRequest :=
  ⟨some "AB/23B/2", some 9, some 7, none, some devChrome⟩

/-- Same submission as `reqChrome` but with the state code padded with
spaces and lower-cased. -/
def reqChromePadded : GenerateRequest :=
  ⟨some " ab/23a/1 ", some 9, some 7, none, some devChrome⟩

/-- Used ticket from today, for the verification fixtures. -/
def entUsed : QueueEntry :=
  ⟨7, "AB/23A/9", 3, 1, "FP-USED", 9, 7, .USED, day0⟩

/-- Active ticket dated yesterday, for the expiry fixture. -/
def entStale : QueueEntry :=
  ⟨8, "AB/23A/8", 1, 1, "FP-STALE", 9, 7, .ACTIVE, "2026-02-01"⟩

/-- Verification store: one used ticket from today, one stale ticket. -/
def dbVerify : DB := ⟨[lga0], [entUsed, entStale], ["AB/23A/9", "AB/23A/8"], 9⟩

/-! ## Helper lemmas -/

/-- Characterisation of `validateStateCode` on present strings: the empty
string early-return coincides with the pattern failing on the normalised
empty string, so validation is exactly "normalise, then test the pattern". -/
lemma validateStateCode_some (s : String) :
    validateStateCode (some s) =
      if stateCodePattern (normalizeStateCode s).data then some (normalizeStateCode s)
      else none := by
  unfold validateStateCode
  by_cases h1 : s = ""
  · subst h1
    have hempty : normalizeStateCode "" = "" := by decide
    simp [hempty]
    decide
  · simp [h1]

/-- Validation results agree whenever the normalised forms agree. -/
lemma validateStateCode_eq_of_norm_eq (s1 s2 : String)
    (h : normalizeStateCode s1 = normalizeStateCode s2) :
    validateStateCode (some s1) = validateStateCode (some s2) := by
  rw [validateStateCode_some, validateStateCode_some, h]

/-- Clamped accuracy is constant once the reported accuracy reaches the cap. -/
lemma clamp_eq_cap_of_ge {a : ℝ} (h : (150 : ℝ) ≤ a) :
    min (max a 0) MAX_ACCURACY_ADJUST = min (max (150 : ℝ) 0) MAX_ACCURACY_ADJUST := by
  unfold MAX_ACCURACY_ADJUST
  rw [max_eq_left (le_trans (by norm_num : (0:ℝ) ≤ 150) h),
      min_eq_right h,
      max_eq_left (by norm_num : (0:ℝ) ≤ 150), min_self]

/-! ## Claim theorems -/

/-- C4: the proximity gate composes the haversine distance with the
clamp-and-compare rule — clamp the reported accuracy to `[0, 150]`, subtract
it from the raw distance floored at zero, admit iff the effective distance
is at most the radius.  At radius 500 and raw distance 520 the gate admits
at accuracy 30 (effective 490) and denies at accuracy 0; any accuracy at or
above the 150 m cap behaves exactly as accuracy 150. -/
theorem C4_proximity_gate :
    (∀ uLat uLon cLat cLon radius acc : ℝ,
        isWithinGeofence uLat uLon cLat cLon radius acc =
          geofenceVerdict (calculateDistance uLat uLon cLat cLon) radius acc)
    ∧ (geofenceVerdict 520 500 30).isWithin
    ∧ ¬ (geofenceVerdict 520 500 0).isWithin
    ∧ (∀ d radius acc : ℝ, 150 ≤ acc →
        geofenceVerdict d radius acc = geofenceVerdict d radius 150) := by
  refine ⟨fun _ _ _ _ _ _ => rfl, ?_, ?_, ?_⟩
  · show max 0 ((520:ℝ) - min (max 30 0) MAX_ACCURACY_ADJUST) ≤ 500
    rw [MAX_ACCURACY_ADJUST]
    norm_num
  · show ¬ max 0 ((520:ℝ) - min (max 0 0) MAX_ACCURACY_ADJUST) ≤ 500
    rw [MAX_ACCURACY_ADJUST]
    norm_num
  · intro d radius acc h
    unfold geofenceVerdict
    rw [clamp_eq_cap_of_ge h]

/-- Witness for C4 at the accuracy value 1000 named in the claim: the gate
behaves exactly as at the 150 m cap. -/
theorem C4_proximity_gate_witness :
    geofenceVerdict 520 500 1000 = geofenceVerdict 520 500 150 :=
  C4_proximity_gate.2.2.2 520 500 1000 (by norm_num)

/-- Evaluation of the generate handler once the request has passed all
checks up to the device duplicate query and that query finds a row:
VALIDATION 5 decides the outcome and the identity check never runs. -/
lemma generate_device_hit
    (dev conflict : Bool) (hash : String → String) (dist : ℤ → ℤ → ℤ → ℤ → ℤ)
    (db : DB) (today norm : String) (req : GenerateRequest) (dinfo : DeviceInfo)
    (lga : LGA) (ex : QueueEntry)
    (hsc : validateStateCode req.state_code = some norm)
    (hloc : (!dev && (validateLocation req.latitude req.longitude).isNone) = false)
    (hdi : req.device_info = some dinfo)
    (hvd : validateDeviceInfo dinfo = [])
    (hlga : db.lgas.head? = some lga)
    (hgeo : (!dev && !(geofenceVerdictQ
        (dist (locOf req lga).1 (locOf req lga).2 lga.latitude lga.longitude)
        lga.radius_meters (accuracyOf req.gps_accuracy)).isWithin) = false)
    (hdev : deviceCheck db (generateFingerprint hash dinfo) today lga.id = some ex) :
    generate dev hash dist conflict db today req =
      if ex.state_code = norm then
        (.existingQueue ex.queue_number ex.id ex.status ex.date, db)
      else
        (.deviceAlreadyUsed ex.queue_number ex.state_code norm, db) := by
  simp [generate, hsc, hdi, hvd, hlga, hdev, hloc, hgeo]

/-- Evaluation of the generate handler when the device query finds nothing
and the state-code query finds a row: since the device query came back
empty, that row necessarily carries a different fingerprint, and the
handler denies with the state-code-already-used outcome. -/
lemma generate_identity_hit
    (dev conflict : Bool) (hash : String → String) (dist : ℤ → ℤ → ℤ → ℤ → ℤ)
    (db : DB) (today norm : String) (req : GenerateRequest) (dinfo : DeviceInfo)
    (lga : LGA) (ex : QueueEntry)
    (hsc : validateStateCode req.state_code = some norm)
    (hloc : (!dev && (validateLocation req.latitude req.longitude).isNone) = false)
    (hdi : req.device_info = some dinfo)
    (hvd : validateDeviceInfo dinfo = [])
    (hlga : db.lgas.head? = some lga)
    (hgeo : (!dev && !(geofenceVerdictQ
        (dist (locOf req lga).1 (locOf req lga).2 lga.latitude lga.longitude)
        lga.radius_meters (accuracyOf req.gps_accuracy)).isWithin) = false)
    (hdev : deviceCheck db (generateFingerprint hash dinfo) today lga.id = none)
    (hid : stateCodeCheck db norm today lga.id = some ex) :
    generate dev hash dist conflict db today req = (.stateCodeAlreadyUsed, db) := by
  have hex := List.find?_some hid
  have hmem := List.mem_of_find?_eq_some hid
  have hnofp := List.find?_eq_none.mp hdev ex hmem
  have hne : ex.device_fingerprint ≠ generateFingerprint hash dinfo := by
    intro hfp
    apply hnofp
    simp only [Bool.and_eq_true, beq_iff_eq] at hex ⊢
    exact ⟨⟨hfp, hex.1.2⟩, hex.2⟩
  simp [generate, hsc, hdi, hvd, hlga, hdev, hid, hloc, hgeo, hne]

/-- Evaluation of the generate handler when neither duplicate query blocks
the request: control reaches the allocation block of queue.js lines 202-269. -/
lemma generate_reaches_allocate
    (dev conflict : Bool) (hash : String → String) (dist : ℤ → ℤ → ℤ → ℤ → ℤ)
    (db : DB) (today norm : String) (req : GenerateRequest) (dinfo : DeviceInfo)
    (lga : LGA)
    (hsc : validateStateCode req.state_code = some norm)
    (hloc : (!dev && (validateLocation req.latitude req.longitude).isNone) = false)
    (hdi : req.device_info = some dinfo)
    (hvd : validateDeviceInfo dinfo = [])
    (hlga : db.lgas.head? = some lga)
    (hgeo : (!dev && !(geofenceVerdictQ
        (dist (locOf req lga).1 (locOf req lga).2 lga.latitude lga.longitude)
        lga.radius_meters (accuracyOf req.gps_accuracy)).isWithin) = false)
    (hdev : deviceCheck db (generateFingerprint hash dinfo) today lga.id = none)
    (hid : stateCodeCheck db norm today lga.id = none ∨
      ∃ ex, stateCodeCheck db norm today lga.id = some ex ∧
        ex.device_fingerprint = generateFingerprint hash dinfo) :
    generate dev hash dist conflict db today req =
      allocate conflict db today lga norm (generateFingerprint hash dinfo) (locOf req lga) := by
  rcases hid with hid | ⟨ex, hid, hfp⟩
  · simp [generate, hsc, hdi, hvd, hlga, hdev, hid, hloc, hgeo]
  · simp [generate, hsc, hdi, hvd, hlga, hdev, hid, hloc, hgeo, hfp]

/-- Inversion: a run of the generate handler that commits a new ticket must
have passed every check, found no device match and no state-code row, and
the committed state is exactly the old state plus the new entry carrying
the next sequence number. -/
lemma generate_allocated_inv
    (dev conflict : Bool) (hash : String → String) (dist : ℤ → ℤ → ℤ → ℤ → ℤ)
    (db : DB) (today : String) (req : GenerateRequest)
    (n ref : Nat) (st : Status) (dt : String) (db' : DB)
    (h : generate dev hash dist conflict db today req = (.allocated n ref st dt, db')) :
    conflict = false ∧
    ∃ norm dinfo lga,
      validateStateCode req.state_code = some norm ∧
      (!dev && (validateLocation req.latitude req.longitude).isNone) = false ∧
      req.device_info = some dinfo ∧
      validateDeviceInfo dinfo = [] ∧
      db.lgas.head? = some lga ∧
      (!dev && !(geofenceVerdictQ
          (dist (locOf req lga).1 (locOf req lga).2 lga.latitude lga.longitude)
          lga.radius_meters (accuracyOf req.gps_accuracy)).isWithin) = false ∧
      deviceCheck db (generateFingerprint hash dinfo) today lga.id = none ∧
      stateCodeCheck db norm today lga.id = none ∧
      n = maxQueueNumber db lga.id today + 1 ∧
      ref = db.nextId ∧ st = .ACTIVE ∧ dt = today ∧
      db' = insertQueueEntry db
        { id := db.nextId, state_code := norm,
          queue_number := maxQueueNumber db lga.id today + 1, lga_id := lga.id,
          device_fingerprint := generateFingerprint hash dinfo,
          latitude := (locOf req lga).1, longitude := (locOf req lga).2,
          status := .ACTIVE, date := today } := by
  rcases hsc : validateStateCode req.state_code with _ | norm
  · simp [generate, hsc] at h
  rcases hloc : (!dev && (validateLocation req.latitude req.longitude).isNone) with _ | _
  case some.true => simp [generate, hsc, hloc] at h
  rcases hdi : req.device_info with _ | dinfo
  · simp [generate, hsc, hloc, hdi] at h
  rcases hvd : validateDeviceInfo dinfo with _ | ⟨m, ms⟩
  case some.false.some.cons => simp [generate, hsc, hloc, hdi, hvd] at h
  rcases hlga : db.lgas.head? with _ | lga
  · simp [generate, hsc, hloc, hdi, hvd, hlga] at h
  rcases hgeo : (!dev && !(geofenceVerdictQ
      (dist (locOf req lga).1 (locOf req lga).2 lga.latitude lga.longitude)
      lga.radius_meters (accuracyOf req.gps_accuracy)).isWithin) with _ | _
  case true => simp [generate, hsc, hloc, hdi, hvd, hlga, hgeo] at h
  rcases hdev : deviceCheck db (generateFingerprint hash dinfo) today lga.id with _ | ex
  case some =>
    rw [generate_device_hit dev conflict hash dist db today norm req dinfo lga ex
      hsc hloc hdi hvd hlga hgeo hdev] at h
    by_cases hexc : ex.state_code = norm <;> simp [hexc] at h
  rcases hid : stateCodeCheck db norm today lga.id with _ | ex
  case some =>
    rw [generate_identity_hit dev conflict hash dist db today norm req dinfo lga ex
      hsc hloc hdi hvd hlga hgeo hdev hid] at h
    simp at h
  rw [generate_reaches_allocate dev conflict hash dist db today norm req dinfo lga
    hsc hloc hdi hvd hlga hgeo hdev (Or.inl hid)] at h
  unfold allocate at h
  rcases hc : conflict with _ | _
  case true => rw [hc] at h; simp at h
  rw [hc] at h
  simp only [Bool.false_eq_true, if_false, Prod.mk.injEq, GenResult.allocated.injEq] at h
  obtain ⟨⟨h1, h2, h3, h4⟩, h5⟩ := h
  exact ⟨rfl, norm, dinfo, lga, rfl, rfl, rfl, hvd, rfl, hgeo, hdev, hid,
    h1.symm, h2.symm, h3.symm, h4.symm, h5.symm⟩

/-- C5: the device-signal check (VALIDATION 5) is evaluated strictly before
the identity-claim check (VALIDATION 6).  A submission that conflicts both
ways — its device fingerprint matches a committed ticket holding a different
state code, and its state code is bound to a ticket from a different
fingerprint — is denied with the device-already-used outcome, never the
state-code-already-used one. -/
theorem C5_device_check_first
    (hash : String → String) (dist : ℤ → ℤ → ℤ → ℤ → ℤ) (conflict : Bool)
    (db : DB) (today norm : String) (req : GenerateRequest) (dinfo : DeviceInfo)
    (lga : LGA) (uLat uLon : ℤ) (exDev exId : QueueEntry)
    (hsc : validateStateCode req.state_code = some norm)
    (hdi : req.device_info = some dinfo)
    (hvd : validateDeviceInfo dinfo = [])
    (hlga : db.lgas.head? = some lga)
    (hloc : validateLocation req.latitude req.longitude = some (uLat, uLon))
    (hgeo : (geofenceVerdictQ (dist uLat uLon lga.latitude lga.longitude)
        lga.radius_meters (accuracyOf req.gps_accuracy)).isWithin = true)
    (hdev : deviceCheck db (generateFingerprint hash dinfo) today lga.id = some exDev)
    (hdiff : exDev.state_code ≠ norm)
    (hid : stateCodeCheck db norm today lga.id = some exId)
    (hidfp : exId.device_fingerprint ≠ generateFingerprint hash dinfo) :
    generate false hash dist conflict db today req =
      (.deviceAlreadyUsed exDev.queue_number exDev.state_code norm, db) := by
  have hloc' : (!false && (validateLocation req.latitude req.longitude).isNone) = false := by
    simp [hloc]
  have hlocof : locOf req lga = (uLat, uLon) := by simp [locOf, hloc]
  have hgeo' : (!false && !(geofenceVerdictQ
      (dist (locOf req lga).1 (locOf req lga).2 lga.latitude lga.longitude)
      lga.radius_meters (accuracyOf req.gps_accuracy)).isWithin) = false := by
    rw [hlocof]
    simp [hgeo]
  rw [generate_device_hit false conflict hash dist db today norm req dinfo lga exDev
    hsc hloc' hdi hvd hlga hgeo' hdev, if_neg hdiff]

/-- Witness for C5: the Chrome phone already holds ticket #1 under
AB/23A/1, the code AB/23B/2 is held by another device, and the doubly
conflicting request is denied with the device outcome. -/
theorem C5_device_check_first_witness :
    generate false id distZero false dbBoth day0 reqChromeOtherCode =
      (.deviceAlreadyUsed 1 "AB/23A/1" "AB/23B/2", dbBoth) := by
  have := C5_device_check_first id distZero false dbBoth day0 "AB/23B/2"
    reqChromeOtherCode devChrome lga0 9 7 entChrome entOther
    (by decide) rfl (by decide)
    (by decide) (by decide) (by decide) (by decide) (by decide) (by decide) (by decide)
  exact this

/-- C8: when no committed ticket matches the device fingerprint but the
submitted state code is already bound to a ticket for the same `(lga, day)`
— necessarily from a different fingerprint — the request is denied with the
state-code-already-used outcome and no ticket is created. -/
theorem C8_identity_already_used
    (hash : String → String) (dist : ℤ → ℤ → ℤ → ℤ → ℤ) (conflict : Bool)
    (db : DB) (today norm : String) (req : GenerateRequest) (dinfo : DeviceInfo)
    (lga : LGA) (uLat uLon : ℤ) (exId : QueueEntry)
    (hsc : validateStateCode req.state_code = some norm)
    (hdi : req.device_info = some dinfo)
    (hvd : validateDeviceInfo dinfo = [])
    (hlga : db.lgas.head? = some lga)
    (hloc : validateLocation req.latitude req.longitude = some (uLat, uLon))
    (hgeo : (geofenceVerdictQ (dist uLat uLon lga.latitude lga.longitude)
        lga.radius_meters (accuracyOf req.gps_accuracy)).isWithin = true)
    (hdev : deviceCheck db (generateFingerprint hash dinfo) today lga.id = none)
    (hid : stateCodeCheck db norm today lga.id = some exId) :
    generate false hash dist conflict db today req = (.stateCodeAlreadyUsed, db) := by
  have hloc' : (!false && (validateLocation req.latitude req.longitude).isNone) = false := by
    simp [hloc]
  have hlocof : locOf req lga = (uLat, uLon) := by simp [locOf, hloc]
  have hgeo' : (!false && !(geofenceVerdictQ
      (dist (locOf req lga).1 (locOf req lga).2 lga.latitude lga.longitude)
      lga.radius_meters (accuracyOf req.gps_accuracy)).isWithin) = false := by
    rw [hlocof]
    simp [hgeo]
  exact generate_identity_hit false conflict hash dist db today norm req dinfo lga exId
    hsc hloc' hdi hvd hlga hgeo' hdev hid

/-- Witness for C8: the Chrome phone has no ticket, AB/23B/2 is bound to a
different device, and the request is denied without allocation. -/
theorem C8_identity_already_used_witness :
    generate false id distZero false dbOther day0 reqChromeOtherCode =
      (.stateCodeAlreadyUsed, dbOther) :=
  C8_identity_already_used id distZero false dbOther day0 "AB/23B/2"
    reqChromeOtherCode devChrome lga0 9 7 entOther
    (by decide) rfl (by decide) (by decide) (by decide) (by decide) (by decide) (by decide)

/-- C7: allocation is idempotent for a returning applicant.  If a run of the
generate handler committed a new ticket, re-submitting the identical request
(same state code, same device payload, hence same fingerprint) against the
committed state returns the same queue number and the same reference id as a
success outcome, and leaves the store unchanged. -/
theorem C7_idempotent_reissue
    (dev c1 c2 : Bool) (hash : String → String) (dist : ℤ → ℤ → ℤ → ℤ → ℤ)
    (db : DB) (today : String) (req : GenerateRequest)
    (n ref : Nat) (st : Status) (dt : String) (db' : DB)
    (h : generate dev hash dist c1 db today req = (.allocated n ref st dt, db')) :
    generate dev hash dist c2 db' today req = (.existingQueue n ref .ACTIVE today, db') := by
  obtain ⟨hc, norm, dinfo, lga, hsc, hloc, hdi, hvd, hlga, hgeo, hdev, hid,
    hn, href, hst, hdt, hdb⟩ :=
    generate_allocated_inv dev c1 hash dist db today req n ref st dt db' h
  have hlga' : db'.lgas.head? = some lga := by
    rw [hdb]
    exact hlga
  have hdev' : deviceCheck db' (generateFingerprint hash dinfo) today lga.id =
      some { id := db.nextId
             state_code := norm
             queue_number := maxQueueNumber db lga.id today + 1
             lga_id := lga.id
             device_fingerprint := generateFingerprint hash dinfo
             latitude := (locOf req lga).1
             longitude := (locOf req lga).2
             status := .ACTIVE
             date := today } := by
    rw [hdb]
    unfold deviceCheck insertQueueEntry
    rw [List.find?_append]
    have h1 : db.entries.find? (fun e =>
        e.device_fingerprint == generateFingerprint hash dinfo &&
        e.date == today && e.lga_id == lga.id) = none := hdev
    rw [h1]
    simp [List.find?]
  rw [generate_device_hit dev c2 hash dist db' today norm req dinfo lga _
    hsc hloc hdi hvd hlga' hgeo hdev', if_pos rfl]
  subst hn href hst hdt
  rfl

/-- Witness for C7: replaying the first allocation request against the
committed store returns ticket #1 unchanged. -/
theorem C7_idempotent_reissue_witness :
    generate false id distZero false db1 day0 reqChrome =
      (.existingQueue 1 1 .ACTIVE day0, db1) :=
  C7_idempotent_reissue false false false id distZero db0 day0 reqChrome
    1 1 .ACTIVE day0 db1 (by decide)

/-- C3 (amended): a storage-level conflict at the insert is fatal for the
request — the catch-all of queue.js lines 271-279 rolls the transaction
back and returns the generic 500 failure.  There is no retry and no
distinct contention outcome: the very same request that would have been
allocated without the conflict yields the server-error response. -/
theorem C3_conflict_is_fatal
    (dev : Bool) (hash : String → String) (dist : ℤ → ℤ → ℤ → ℤ → ℤ)
    (db : DB) (today : String) (req : GenerateRequest)
    (n ref : Nat) (st : Status) (dt : String) (db' : DB)
    (h : generate dev hash dist false db today req = (.allocated n ref st dt, db')) :
    generate dev hash dist true db today req = (.serverError, db) := by
  obtain ⟨_, norm, dinfo, lga, hsc, hloc, hdi, hvd, hlga, hgeo, hdev, hid, _⟩ :=
    generate_allocated_inv dev false hash dist db today req n ref st dt db' h
  rw [generate_reaches_allocate dev true hash dist db today norm req dinfo lga
    hsc hloc hdi hvd hlga hgeo hdev (Or.inl hid)]
  rfl

/-- Counterexample for C3 as claimed: injecting a uniqueness conflict at the
insert of an otherwise allocatable request produces the generic server
error with the store rolled back — a single attempt, no retry loop, and no
transient contention outcome exists in the handler. -/
theorem C3_conflict_counterexample :
    generate false id distZero true db0 day0 reqChrome = (.serverError, db0) ∧
    (generate false id distZero false db0 day0 reqChrome).1 =
      .allocated 1 1 .ACTIVE day0 := by
  constructor <;> decide

/-- Witness for C3 (amended) at the concrete first-allocation request. -/
theorem C3_conflict_is_fatal_witness :
    generate false id distZero true db0 day0 reqChrome = (.serverError, db0) :=
  C3_conflict_is_fatal false id distZero db0 day0 reqChrome 1 1 .ACTIVE day0 db1
    (by decide)

/-- C6 (amended): device-attribute completeness (VALIDATION 3, queue.js
lines 64-77) is evaluated before the geofence gate (VALIDATION 4, lines
84-136): whenever the device payload is missing a required attribute, the
handler returns the incomplete-device-information error without ever
consulting the geofence, whatever the distance oracle says. -/
theorem C6_device_info_before_geofence
    (dev conflict : Bool) (hash : String → String) (dist : ℤ → ℤ → ℤ → ℤ → ℤ)
    (db : DB) (today norm : String) (req : GenerateRequest) (dinfo : DeviceInfo)
    (m : String) (ms : List String)
    (hsc : validateStateCode req.state_code = some norm)
    (hloc : (!dev && (validateLocation req.latitude req.longitude).isNone) = false)
    (hdi : req.device_info = some dinfo)
    (hvd : validateDeviceInfo dinfo = m :: ms) :
    generate dev hash dist conflict db today req =
      (.incompleteDeviceInfo (m :: ms), db) := by
  simp [generate, hsc, hloc, hdi, hvd]

/-- Counterexample for C6 as claimed: a request with a well-formed state
code, in-range coordinates, a device payload missing `userAgent`, and a
position 100 km outside the 500 m geofence is answered with
the incomplete-device-information error, not the outside-geofence error. -/
theorem C6_order_counterexample :
    validateLocation reqNoUA.latitude reqNoUA.longitude = some (9, 7) ∧
    (geofenceVerdictQ (distFar 9 7 lga0.latitude lga0.longitude) lga0.radius_meters
      (accuracyOf reqNoUA.gps_accuracy)).isWithin = false ∧
    generate false id distFar false db0 day0 reqNoUA =
      (.incompleteDeviceInfo ["userAgent"], db0) := by
  refine ⟨by decide, by decide, by decide⟩

/-- Witness for C6 (amended) at the same concrete request. -/
theorem C6_device_info_before_geofence_witness :
    generate false id distFar false db0 day0 reqNoUA =
      (.incompleteDeviceInfo ["userAgent"], db0) :=
  C6_device_info_before_geofence false false id distFar db0 day0 "AB/23A/1"
    reqNoUA devNoUA "userAgent" [] (by decide) (by decide) rfl (by decide)

/-- C1 evaluated at the failing input: the two browser payloads share every
stable attribute (equal stable fingerprints) and would also share a network
address, yet after Chrome's allocation the Firefox submission with a
different state code is allocated ticket #2 — the handler consults only the
strict `device_fingerprint` column (queue.js lines 141-146), never the
stable fingerprint or the client address. -/
theorem C1_stable_signal_ignored :
    generateStableFingerprint id devChrome = generateStableFingerprint id devFirefox ∧
    generateFingerprint id devChrome ≠ generateFingerprint id devFirefox ∧
    generate false id distZero false db0 day0 reqChrome =
      (.allocated 1 1 .ACTIVE day0, db1) ∧
    (generate false id distZero false db1 day0 reqFirefox).1 =
      .allocated 2 2 .ACTIVE day0 := by
  refine ⟨rfl, by decide, by decide, by decide⟩

/-- Upper bound for the running maximum of a list of naturals. -/
lemma foldrMax_le {l : List Nat} {b : Nat} (h : ∀ x ∈ l, x ≤ b) :
    l.foldr max 0 ≤ b := by
  induction l with
  | nil => simp
  | cons a t ih =>
      simp only [List.foldr_cons]
      exact max_le (h a (by simp)) (ih fun x hx => h x (by simp [hx]))

/-- Every member is bounded by the running maximum. -/
lemma le_foldrMax {l : List Nat} {x : Nat} (h : x ∈ l) : x ≤ l.foldr max 0 := by
  induction l with
  | nil => simp at h
  | cons a t ih =>
      rcases List.mem_cons.mp h with rfl | hx
      · exact le_max_left _ _
      · exact le_trans (ih hx) (le_max_right _ _)

/-- The aggregate of queue.js lines 204-208 is the running maximum of the
committed sequence numbers. -/
lemma maxQueueNumber_eq_fold (db : DB) (lgaId : Nat) (today : String) :
    maxQueueNumber db lgaId today = (seqNums db lgaId today).foldr max 0 := by
  simp [maxQueueNumber, seqNums, List.foldr_map]

/-- Under the contiguity invariant the maximum sequence number equals the
number of committed tickets. -/
lemma maxQueueNumber_of_contig {db : DB} {lgaId : Nat} {day : String}
    (h : SeqContiguous db lgaId day) :
    maxQueueNumber db lgaId day = (seqNums db lgaId day).length := by
  have hmem : ∀ x, x ∈ seqNums db lgaId day ↔
      x ∈ List.range' 1 (seqNums db lgaId day).length := fun x => h.mem_iff
  rw [maxQueueNumber_eq_fold]
  apply le_antisymm
  · apply foldrMax_le
    intro x hx
    have hx' := (hmem x).mp hx
    rw [List.mem_range'_1] at hx'
    omega
  · rcases Nat.eq_zero_or_pos (seqNums db lgaId day).length with hL | hL
    · omega
    · apply le_foldrMax
      apply (hmem _).mpr
      rw [List.mem_range'_1]
      omega

/-- Any run of the generate handler either leaves the store untouched or
returns an allocated outcome. -/
lemma generate_snd_cases
    (dev conflict : Bool) (hash : String → String) (dist : ℤ → ℤ → ℤ → ℤ → ℤ)
    (db : DB) (today : String) (req : GenerateRequest) :
    (generate dev hash dist conflict db today req).2 = db ∨
    ∃ n ref st dt db',
      generate dev hash dist conflict db today req = (.allocated n ref st dt, db') := by
  rcases hsc : validateStateCode req.state_code with _ | norm
  · left
    simp [generate, hsc]
  rcases hloc : (!dev && (validateLocation req.latitude req.longitude).isNone) with _ | _
  case some.true =>
    left
    simp [generate, hsc, hloc]
  rcases hdi : req.device_info with _ | dinfo
  · left
    simp [generate, hsc, hloc, hdi]
  rcases hvd : validateDeviceInfo dinfo with _ | ⟨m, ms⟩
  case some.false.some.cons =>
    left
    simp [generate, hsc, hloc, hdi, hvd]
  rcases hlga : db.lgas.head? with _ | lga
  · left
    simp [generate, hsc, hloc, hdi, hvd, hlga]
  rcases hgeo : (!dev && !(geofenceVerdictQ
      (dist (locOf req lga).1 (locOf req lga).2 lga.latitude lga.longitude)
      lga.radius_meters (accuracyOf req.gps_accuracy)).isWithin) with _ | _
  case true =>
    left
    simp [generate, hsc, hloc, hdi, hvd, hlga, hgeo]
  rcases hdev : deviceCheck db (generateFingerprint hash dinfo) today lga.id with _ | ex
  case some =>
    left
    rw [generate_device_hit dev conflict hash dist db today norm req dinfo lga ex
      hsc hloc hdi hvd hlga hgeo hdev]
    by_cases hexc : ex.state_code = norm <;> simp [hexc]
  rcases hid : stateCodeCheck db norm today lga.id with _ | ex
  case some =>
    left
    rw [generate_identity_hit dev conflict hash dist db today norm req dinfo lga ex
      hsc hloc hdi hvd hlga hgeo hdev hid]
  rw [generate_reaches_allocate dev conflict hash dist db today norm req dinfo lga
    hsc hloc hdi hvd hlga hgeo hdev (Or.inl hid)]
  unfold allocate
  rcases conflict with _ | _
  · right
    exact ⟨_, _, _, _, _, rfl⟩
  · left
    rfl

/-- Appending the successor of the length to a `\x7b1..N\x7d` permutation
yields a `\x7b1..N+1\x7d` permutation. -/
lemma perm_range'_append {l : List Nat} (h : l.Perm (List.range' 1 l.length)) :
    (l ++ [l.length + 1]).Perm (List.range' 1 (l ++ [l.length + 1]).length) := by
  have hlen : (l ++ [l.length + 1]).length = l.length + 1 := by simp
  rw [hlen, List.range'_concat]
  have h1 : 1 + 1 * l.length = l.length + 1 := by omega
  rw [h1]
  exact h.append_right [l.length + 1]

/-- Effect of an insert on the committed sequence numbers of one
`(lga, date)` pair. -/
lemma seqNums_insert (db : DB) (e : QueueEntry) (lgaId : Nat) (day : String) :
    seqNums (insertQueueEntry db e) lgaId day =
      seqNums db lgaId day ++
        (if e.lga_id == lgaId && e.date == day then [e.queue_number] else []) := by
  simp only [seqNums, entriesFor, insertQueueEntry, List.filter_append, List.map_append]
  rcases hp : (e.lga_id == lgaId && e.date == day) with _ | _ <;>
    simp [List.filter_singleton, hp]

/-- Inserting a row that carries the next sequence number (or targets a
different `(lga, date)`) preserves the contiguity invariant. -/
lemma contig_insert_next {db : DB} {lgaId : Nat} {day : String} (e : QueueEntry)
    (h : SeqContiguous db lgaId day)
    (hq : (e.lga_id == lgaId && e.date == day) = true →
      e.queue_number = maxQueueNumber db lgaId day + 1) :
    SeqContiguous (insertQueueEntry db e) lgaId day := by
  unfold SeqContiguous
  rw [seqNums_insert]
  rcases hp : (e.lga_id == lgaId && e.date == day) with _ | _
  · simp only [hp, Bool.false_eq_true, if_false, List.append_nil]
    exact h
  · simp only [hp, if_true]
    rw [hq hp, maxQueueNumber_of_contig h]
    exact perm_range'_append h

/-- One step of the generate handler preserves the contiguity invariant for
every `(lga, date)` pair. -/
lemma generate_preserves_contig
    (dev conflict : Bool) (hash : String → String) (dist : ℤ → ℤ → ℤ → ℤ → ℤ)
    (db : DB) (today : String) (req : GenerateRequest) (lgaId : Nat) (day : String)
    (h : SeqContiguous db lgaId day) :
    SeqContiguous (generate dev hash dist conflict db today req).2 lgaId day := by
  rcases generate_snd_cases dev conflict hash dist db today req with
    h2 | ⟨n, ref, st, dt, db', heq⟩
  · rw [h2]
    exact h
  · obtain ⟨_, norm, dinfo, lga, _, _, _, _, _, _, _, _, _, _, _, _, hdb⟩ :=
      generate_allocated_inv dev conflict hash dist db today req n ref st dt db' heq
    have h2 : (generate dev hash dist conflict db today req).2 = db' := by rw [heq]
    rw [h2, hdb]
    apply contig_insert_next _ h
    intro hp
    simp only [Bool.and_eq_true, beq_iff_eq] at hp
    show maxQueueNumber db lga.id today + 1 = maxQueueNumber db lgaId day + 1
    rw [hp.1, hp.2]

/-- The contiguity invariant is preserved by any sequence of requests. -/
lemma generateAll_contig (dev : Bool) (hash : String → String)
    (dist : ℤ → ℤ → ℤ → ℤ → ℤ) (today : String) (reqs : List GenerateRequest) :
    ∀ (db : DB) (lgaId : Nat) (day : String), SeqContiguous db lgaId day →
      SeqContiguous (generateAll dev hash dist db today reqs) lgaId day := by
  induction reqs with
  | nil =>
      intro db lgaId day h
      exact h
  | cons r rest ih =>
      intro db lgaId day h
      exact ih _ lgaId day
        (generate_preserves_contig dev false hash dist db today r lgaId day h)

/-- C2: starting from a store whose committed sequence numbers for a
`(lga, day)` pair form exactly `\x7b1..N\x7d`, any sequence of requests run
through the generate handler keeps them exactly `\x7b1..N'\x7d` — no
duplicates and no gaps — and every allocation hands out the current maximum
plus one (hence 1 on an empty day). -/
theorem C2_sequence_contiguous :
    (∀ (dev : Bool) (hash : String → String) (dist : ℤ → ℤ → ℤ → ℤ → ℤ)
        (db : DB) (today day : String) (lgaId : Nat) (reqs : List GenerateRequest),
        SeqContiguous db lgaId day →
        SeqContiguous (generateAll dev hash dist db today reqs) lgaId day)
    ∧ (∀ (dev conflict : Bool) (hash : String → String) (dist : ℤ → ℤ → ℤ → ℤ → ℤ)
        (db : DB) (today : String) (req : GenerateRequest) (lga : LGA)
        (n ref : Nat) (st : Status) (dt : String) (db' : DB),
        db.lgas.head? = some lga →
        generate dev hash dist conflict db today req = (.allocated n ref st dt, db') →
        n = maxQueueNumber db lga.id today + 1) := by
  constructor
  · intro dev hash dist db today day lgaId reqs h
    exact generateAll_contig dev hash dist today reqs db lgaId day h
  · intro dev conflict hash dist db today req lga n ref st dt db' hlga h
    obtain ⟨_, norm, dinfo, lga', _, _, _, _, hlga', _, _, _, hn, _⟩ :=
      generate_allocated_inv dev conflict hash dist db today req n ref st dt db' h
    rw [hlga] at hlga'
    injection hlga' with hl
    rw [← hl] at hn
    exact hn

/-- Witness for C2: two successful allocations from the empty store produce
sequence numbers forming exactly the set with elements 1 and 2, and the
first allocation hands out maximum-plus-one, i.e. 1. -/
theorem C2_sequence_contiguous_witness :
    SeqContiguous (generateAll false id distZero db0 day0 [reqChrome, reqFirefox]) 1 day0 ∧
    1 = maxQueueNumber db0 lga0.id day0 + 1 := by
  constructor
  · exact C2_sequence_contiguous.1 false id distZero db0 day0 day0 1
      [reqChrome, reqFirefox] (by unfold SeqContiguous; decide)
  · exact C2_sequence_contiguous.2 false false id distZero db0 day0 reqChrome lga0
      1 1 .ACTIVE day0 db1 (by decide) (by decide)

/-- Unfolding of a successful joined lookup. -/
lemma findEntryWithLga_some {db : DB} {r : Nat} {e : QueueEntry} {lga : LGA}
    (hfind : findEntryWithLga db r = some (e, lga)) :
    db.entries.find? (fun x => x.id == r) = some e := by
  unfold findEntryWithLga at hfind
  rcases hf : db.entries.find? (fun x => x.id == r) with _ | ea <;> rw [hf] at hfind
  · simp at hfind
  · rcases hl : db.lgas.find? (fun l => l.id == ea.lga_id) with _ | la <;>
      simp only [hl] at hfind
    · exact absurd hfind (by simp)
    · simp only [Option.some.injEq, Prod.mk.injEq] at hfind
      rw [hf, hfind.1]

/-- C9: ticket status only ever moves one way.  Part one: assuming unique
ids (the primary key), every entry of the store after a verify call is
either an unchanged entry of the old store, or an entry that was ACTIVE,
dated today, and was marked USED by an explicit mark-used request — so USED
never reverts and nothing dated another day is touched.  Part two: marking
an already-USED same-day ticket reports success with the status unchanged
and does not modify the store.  Part three: a ticket dated another day is
reported expired, whatever its status and the mark flag, with no
modification. -/
theorem C9_status_one_way :
    (∀ (db : DB) (today : String) (ref : Option Nat) (mu : Option Bool) (e2 : QueueEntry),
        (db.entries.map (fun e => e.id)).Nodup →
        e2 ∈ (verify db today ref mu).2.entries →
        ∃ e1, e1 ∈ db.entries ∧
          (e2 = e1 ∨ (e1.status = .ACTIVE ∧ e1.date = today ∧ mu = some true ∧
            e2 = { e1 with status := .USED })))
    ∧ (∀ (db : DB) (today : String) (r : Nat) (e : QueueEntry) (lga : LGA),
        findEntryWithLga db r = some (e, lga) → e.date = today → e.status = .USED →
        verify db today (some r) (some true) =
          (.ok e.queue_number e.state_code lga.name .USED e.date, db))
    ∧ (∀ (db : DB) (today : String) (r : Nat) (e : QueueEntry) (lga : LGA)
        (mu : Option Bool),
        findEntryWithLga db r = some (e, lga) → e.date ≠ today →
        verify db today (some r) mu = (.expired, db)) := by
  refine ⟨?_, ?_, ?_⟩
  · intro db today ref mu e2 hnd hmem
    rcases ref with _ | r
    · exact ⟨e2, by simpa [verify] using hmem, Or.inl rfl⟩
    rcases hfind : findEntryWithLga db r with _ | ⟨e0, lga⟩
    · refine ⟨e2, ?_, Or.inl rfl⟩
      simpa [verify, hfind] using hmem
    by_cases hdate : e0.date ≠ today
    · refine ⟨e2, ?_, Or.inl rfl⟩
      simpa [verify, hfind, hdate] using hmem
    rcases hcond : (mu == some true && e0.status == Status.ACTIVE) with _ | _
    · refine ⟨e2, ?_, Or.inl rfl⟩
      simpa [verify, hfind, hdate, hcond] using hmem
    · have hmem' : e2 ∈ (markUsedUpdate db r).entries := by
        simpa [verify, hfind, hdate, hcond] using hmem
      unfold markUsedUpdate at hmem'
      simp only at hmem'
      obtain ⟨e1, he1, hfe⟩ := List.mem_map.mp hmem'
      rcases hid : (e1.id == r) with _ | _
      · refine ⟨e1, he1, Or.inl ?_⟩
        rw [← hfe]
        simp [hid]
      · have hf0 := findEntryWithLga_some hfind
        have hmem0 := List.mem_of_find?_eq_some hf0
        have hpred := List.find?_some hf0
        have hidq : e1.id = e0.id := by
          simp only [beq_iff_eq] at hid hpred
          rw [hid, hpred]
        have he10 : e1 = e0 :=
          List.inj_on_of_nodup_map hnd he1 hmem0 hidq
        simp only [Bool.and_eq_true, beq_iff_eq] at hcond
        refine ⟨e1, he1, Or.inr ⟨?_, ?_, hcond.1, ?_⟩⟩
        · rw [he10]
          exact hcond.2
        · rw [he10]
          exact not_not.mp hdate
        · rw [← hfe]
          simp [hid]
  · intro db today r e lga hfind hdate hst
    simp [verify, hfind, hdate, hst]
  · intro db today r e lga mu hfind hdate
    simp [verify, hfind, hdate]

/-- Witness for C9 at the concrete verification store: the already-USED
same-day ticket 7 reports success USED with the store unchanged, the stale
ticket 8 reports expired, and part one applies to the unchanged store. -/
theorem C9_status_one_way_witness :
    (∃ e1, e1 ∈ dbVerify.entries ∧
      (entUsed = e1 ∨ (e1.status = .ACTIVE ∧ e1.date = day0 ∧ some true = some true ∧
        entUsed = { e1 with status := .USED }))) ∧
    verify dbVerify day0 (some 7) (some true) =
      (.ok 3 "AB/23A/9" "Ikeja" .USED day0, dbVerify) ∧
    verify dbVerify day0 (some 8) (some true) = (.expired, dbVerify) := by
  refine ⟨?_, ?_, ?_⟩
  · exact C9_status_one_way.1 dbVerify day0 (some 7) (some true) entUsed
      (by decide) (by decide)
  · exact C9_status_one_way.2.1 dbVerify day0 7 entUsed lga0 (by decide) rfl rfl
  · exact C9_status_one_way.2.2 dbVerify day0 8 entStale lga0 (some true)
      (by decide) (by decide)

/-- C10: identity claims are normalised (trimmed, upper-cased) before the
pattern test, the validator's output is the normalised form, and the whole
generate handler depends on the submitted state code only through that
normalised form — two submissions differing only in case or surrounding
whitespace receive identical outcomes against any store (same returned
ticket or same denial) and leave identical states. -/
theorem C10_state_code_normalised :
    (∀ s n, validateStateCode (some s) = some n → n = normalizeStateCode s)
    ∧ (∀ s, validateStateCode (some s) =
        if stateCodePattern (normalizeStateCode s).data then some (normalizeStateCode s)
        else none)
    ∧ (∀ (dev conflict : Bool) (hash : String → String) (dist : ℤ → ℤ → ℤ → ℤ → ℤ)
        (db : DB) (today : String) (req1 req2 : GenerateRequest) (s1 s2 : String),
        req1.state_code = some s1 → req2.state_code = some s2 →
        req1.latitude = req2.latitude → req1.longitude = req2.longitude →
        req1.gps_accuracy = req2.gps_accuracy → req1.device_info = req2.device_info →
        normalizeStateCode s1 = normalizeStateCode s2 →
        generate dev hash dist conflict db today req1 =
          generate dev hash dist conflict db today req2) := by
  refine ⟨?_, validateStateCode_some, ?_⟩
  · intro s n h
    rw [validateStateCode_some] at h
    by_cases hp : stateCodePattern (normalizeStateCode s).data = true
    · rw [if_pos hp] at h
      exact (Option.some.inj h).symm
    · rw [if_neg hp] at h
      exact absurd h (by simp)
  · intro dev conflict hash dist db today req1 req2 s1 s2 hs1 hs2 hlat hlon hacc hdev hnorm
    have hv : validateStateCode req1.state_code = validateStateCode req2.state_code := by
      rw [hs1, hs2]
      exact validateStateCode_eq_of_norm_eq s1 s2 hnorm
    unfold generate locOf
    rw [hv, hlat, hlon, hacc, hdev]

/-- Witness for C10: a padded lower-case submission validates to the same
normalised code and produces exactly the same allocation as the clean one. -/
theorem C10_state_code_normalised_witness :
    ("AB/23A/1" : String) = normalizeStateCode " ab/23a/1 " ∧
    generate false id distZero false db0 day0 reqChromePadded =
      generate false id distZero false db0 day0 reqChrome := by
  constructor
  · exact C10_state_code_normalised.1 " ab/23a/1 " "AB/23A/1" (by decide)
  · exact C10_state_code_normalised.2.2 false false id distZero db0 day0
      reqChromePadded reqChrome " ab/23a/1 " "ab/23a/1" rfl rfl rfl rfl rfl rfl (by decide)
